import Mathlib

/-!
Verification of the KleverDesktop task-execution control loop and model-response
connector layer, as a shallow embedding of the Python sources:

* `appagent/scripts/self_explorer.py` — the round loop, grid coordinates, element
  filtering, reflection handling, documentation store, exit codes.
* `appagent/scripts/model.py` — `parse_explore_rsp` and its action parser.
* `appagent/scripts/utils.py` — `draw_grid`'s unit-length selection (identical to
  the copy in `self_explorer.calculate_grid_coordinates`).
* `appagent/scripts/and_controller.py` — `traverse_tree`'s distance dedup.
* `core/model_connectors/base.py` / `claude.py` — connector selection and
  coordinate-to-pixel conversion.

Machine integers are modelled as `Int`/`Nat`; Python `//` is `Int.fdiv` (floor),
Python `int()` truncation toward zero on an exact quotient `a/b` is `Int.tdiv`.
Floating-point expressions that only mediate exact integer comparisons (the
Euclidean `** 0.5` distance against `MIN_DIST`) are modelled by the equivalent
squared-integer comparison.
-/

namespace Klever

/-- Scans `hay` for an occurrence of `needle` as a prefix of some suffix. -/
def containsAux (needle : List Char) : List Char → Bool
  | [] => needle.isEmpty
  | c :: rest => needle.isPrefixOf (c :: rest) || containsAux needle rest

/-- Python `needle in haystack` substring test. -/
def pyContains (needle hay : String) : Bool :=
  containsAux needle.toList hay.toList

/-- The whitespace set of Python `str.strip()` (ASCII portion). -/
def pyIsSpace (c : Char) : Bool :=
  c = ' ' ∨ c = '\t' ∨ c = '\n' ∨ c = '\r' ∨ c = '\x0b' ∨ c = '\x0c'

/-- Python `s.strip()` on a character list. -/
def pyStripChars (cs : List Char) : List Char :=
  ((cs.dropWhile pyIsSpace).reverse.dropWhile pyIsSpace).reverse

/-- Python `s.strip()`. -/
def pyStrip (s : String) : String :=
  (pyStripChars s.toList).asString

/-- Python `s.split(sep)` for a one-character separator: every occurrence
splits, empty parts included. -/
def splitOnChar (sep : Char) : List Char → List Char → List String
  | [], acc => [(acc.reverse).asString]
  | c :: rest, acc =>
    if c = sep then (acc.reverse).asString :: splitOnChar sep rest []
    else splitOnChar sep rest (c :: acc)

/-- Python `s.split(sep)`. -/
def pySplit (sep : Char) (s : String) : List String :=
  splitOnChar sep s.toList []

/-- Python `s.lower()` (ASCII case mapping). -/
def pyLower (s : String) : String :=
  (s.toList.map Char.toLower).asString

/-- Python `s[1:-1]`: drops the first and last character (empty for length ≤ 1). -/
def pySlice1m1 (s : String) : String :=
  ((s.toList.drop 1).dropLast).asString

/-- Python `s.split("(")[0]`: the prefix of `s` before the first `(`. -/
def pySplitParen0 (s : String) : String :=
  ((s.toList.takeWhile (fun c => c ≠ '(')).asString)

/-- Python `int(s)` on ASCII input: optional surrounding whitespace, optional
sign, then a non-empty digit string; `none` models the `ValueError`. -/
def pyInt (s : String) : Option Int :=
  let t := pyStripChars s.toList
  let (sign, digits) :=
    match t with
    | '-' :: rest => ((-1 : Int), rest)
    | '+' :: rest => ((1 : Int), rest)
    | rest => ((1 : Int), rest)
  if digits.isEmpty then none
  else if digits.all Char.isDigit then
    some (sign * (digits.foldl (fun acc c => acc * 10 + (c.toNat - '0'.toNat)) 0 : Nat))
  else none

/-- Python list indexing `l[i]` (negative indices wrap once from the end);
`none` models the `IndexError`. -/
def pyIndex {α : Type} (l : List α) (i : Int) : Option α :=
  if 0 ≤ i then l.get? i.toNat
  else
    let j := i + l.length
    if 0 ≤ j then l.get? j.toNat else none

/-- Python `set.add`: membership-preserving insert into the set of uids. -/
def pyAdd (x : String) (l : List String) : List String :=
  if l.contains x then l else x :: l

/-! ## Grid unit length — `get_unit_len` in `self_explorer.calculate_grid_coordinates`
and (verbatim identical) in `utils.draw_grid`:

```python
def get_unit_len(n):
    for i in range(1, n + 1):
        if n % i == 0 and 120 <= i <= 180:
            return i
    return -1
```
-/

/-- The loop body of `get_unit_len`: scans `i, i+1, …` for `fuel` steps. -/
def scanUnit (n : Nat) : Nat → Nat → Int
  | _, 0 => -1
  | i, fuel + 1 =>
    if n % i = 0 ∧ 120 ≤ i ∧ i ≤ 180 then (i : Int)
    else scanUnit n (i + 1) fuel

/-- Function `get_unit_len(n)`: the first `i ∈ [1, n]` dividing `n` with `120 ≤ i ≤ 180`,
else `-1`. -/
def get_unit_len (n : Nat) : Int := scanUnit n 1 n

/-- The unit length actually used by the callers (`calculate_grid_coordinates`
and `draw_grid`): `get_unit_len` result, or the fixed default `120` when it is
negative. -/
def gridUnit (n : Nat) : Nat :=
  if get_unit_len n < 0 then 120 else (get_unit_len n).toNat

/-- Written from the spec's words ("the largest divisor of each screen dimension
within a fixed pleasant range (e.g. 120–180 px); if no divisor exists in range, a
fixed default cell size"), to be compared with `gridUnit` from the source. -/
def spec_gridUnit_largest (n : Nat) : Nat :=
  match ((List.range 181).filter (fun i => 120 ≤ i ∧ n % i = 0)).max? with
  | some d => d
  | none => 120

/-! ## Coordinate-to-pixel conversion —
`BaseConnector.convert_coords_to_pixels` (`core/model_connectors/base.py`):

```python
x = int(point[0] / 1000 * device_size[0])
y = int(point[1] / 1000 * device_size[1])
return (x, y)
```

and the `ClaudeConnector` override (`core/model_connectors/claude.py`), which
additionally clamps:

```python
x = max(0, min(x, device_size[0] - 1))
y = max(0, min(y, device_size[1] - 1))
```

`int(p / 1000 * w)` truncates the exact quotient `p*w/1000` toward zero,
i.e. `Int.tdiv (p * w) 1000`. -/

def base_convert_coords_to_pixels (point : Int × Int) (size : Nat × Nat) : Int × Int :=
  (Int.tdiv (point.1 * size.1) 1000, Int.tdiv (point.2 * size.2) 1000)

def claude_convert_coords_to_pixels (point : Int × Int) (size : Nat × Nat) : Int × Int :=
  let x := Int.tdiv (point.1 * size.1) 1000
  let y := Int.tdiv (point.2 * size.2) 1000
  (max 0 (min x ((size.1 : Int) - 1)), max 0 (min y ((size.2 : Int) - 1)))

/-! ## Connector selection — `get_connector` and `COORDINATE_BASED_MODELS`
(`core/model_connectors/base.py`). -/

def COORDINATE_BASED_MODELS : List String := ["gelab"]

inductive ConnectorKind : Type
  | gelabConn
  | claude
  | default
deriving DecidableEq, Repr

/-- Function `get_connector(model_name)`: routes by lowercased substring match. -/
def get_connector (model_name : String) : ConnectorKind :=
  let model_lower := pyLower model_name
  if pyContains "gelab" model_lower then .gelabConn
  else
    let coord_models := COORDINATE_BASED_MODELS.filter (fun m => m ≠ "gelab")
    if coord_models.any (fun m => pyContains m model_lower) then .claude
    else .default

/-! ## UI elements, center-distance dedup and per-round element list —
`and_controller.traverse_tree` (lines 700–727) and `self_explorer` lines 294–313. -/

/-- An interactive UI element: uid plus bounding box `((x1,y1),(x2,y2))`. -/
structure Elem : Type where
  uid : String
  bbox : (Int × Int) × (Int × Int)
deriving DecidableEq, Repr

/-- The center `((x1+x2)//2, (y1+y2)//2)` (Python `//` is floor division). -/
def center (e : Elem) : Int × Int :=
  (Int.fdiv (e.bbox.1.1 + e.bbox.2.1) 2, Int.fdiv (e.bbox.1.2 + e.bbox.2.2) 2)

/-- Squared Euclidean distance between two centers. The source compares
`(|dx|**2 + |dy|**2) ** 0.5 <= MIN_DIST`; for integer centers and a
non-negative threshold this is exactly `distSq ≤ MIN_DIST²`. -/
def distSq (c c' : Int × Int) : Int :=
  (c.1 - c'.1) ^ 2 + (c.2 - c'.2) ^ 2

/-- The `close` flag: some element of `l` has its center within `minDist` of `c`. -/
def closeToAny (c : Int × Int) (l : List Elem) (minDist : Int) : Bool :=
  l.any (fun e => distSq c (center e) ≤ minDist ^ 2)

/-- The keep-or-drop dedup of `traverse_tree`: candidates are processed in
document order and appended only when not `close` to an already-kept element.
(The XML iteration itself is the external Perception Adapter; its output is the
candidate list.) -/
def dedupByDist (minDist : Int) (cands : List Elem) : List Elem :=
  cands.foldl (fun kept e =>
    if closeToAny (center e) kept minDist then kept else kept ++ [e]) []

/-- The per-round `elem_list` built in `self_explorer` (lines 294–313):
clickable elements minus useless ones, then focusable elements that are neither
useless nor `close` to ANY member of the raw clickable list. -/
def buildElemList (clickable focusable : List Elem) (useless : List String)
    (minDist : Int) : List Elem :=
  clickable.filter (fun e => !(useless.contains e.uid)) ++
    focusable.filter (fun e =>
      !(useless.contains e.uid) && !(closeToAny (center e) clickable minDist))

/-! ## Documentation store — `self_explorer` lines 658–678.

A per-element file holds a Python dict literal mapping action kind to learned
text; the store is the map from element uid to that dict. Python dicts are
insertion-ordered association lists whose assignment replaces in place. -/

/-- A per-element documentation record: action kind ↦ learned text. -/
def DocRecord : Type := List (String × String)

/-- The store: element uid ↦ documentation record (a missing uid means the
per-element file does not exist). -/
def DocStore : Type := List (String × DocRecord)

instance : DecidableEq DocRecord := inferInstanceAs (DecidableEq (List (String × String)))
instance : DecidableEq DocStore := inferInstanceAs (DecidableEq (List (String × DocRecord)))
instance : Repr DocRecord := inferInstanceAs (Repr (List (String × String)))
instance : Repr DocStore := inferInstanceAs (Repr (List (String × DocRecord)))

/-- Python `dict[k]` read: `none` models the `KeyError`. -/
def kvGet {β : Type} (l : List (String × β)) (k : String) : Option β :=
  match l with
  | [] => none
  | (k', v) :: rest => if k' = k then some v else kvGet rest k

/-- Python `dict[k] = v` assignment: replaces in place, or appends a new key. -/
def kvSet {β : Type} (l : List (String × β)) (k : String) (v : β) : List (String × β) :=
  match l with
  | [] => [(k, v)]
  | (k', v') :: rest => if k' = k then (k, v) :: rest else (k', v') :: kvSet rest k v

/-- The fresh template written when no file exists for the element
(`self_explorer` lines 667–673): one empty slot per action kind. -/
def docTemplate : DocRecord :=
  [("tap", ""), ("text", ""), ("v_swipe", ""), ("h_swipe", ""), ("long_press", "")]

/-- Kinds of exceptions the modelled Python code can raise. -/
inductive PyErr : Type
  | indexError
  | valueError
  | nameError
  | keyError
deriving DecidableEq, Repr

/-- The documentation write block (`self_explorer` lines 658–677): if the
element's file exists and its slot for `act_name` is non-empty, log "already
documented" and skip (`continue`); otherwise write the slot (creating the file
from `docTemplate` if needed). Returns the new store and whether a write
happened (`doc_count += 1`). Reading a missing slot from an existing file is a
`KeyError`. -/
def recordDoc (store : DocStore) (uid act_name doc : String) :
    Except PyErr (DocStore × Bool) :=
  match kvGet store uid with
  | some content =>
    match kvGet content act_name with
    | none => .error .keyError
    | some existing =>
      if existing ≠ "" then .ok (store, false)
      else .ok (kvSet store uid (kvSet content act_name doc), true)
  | none => .ok (kvSet store uid (kvSet docTemplate act_name doc), true)

instance {e a : Type} [DecidableEq e] [DecidableEq a] : DecidableEq (Except e a)
  | .error x, .error y =>
    if h : x = y then .isTrue (by rw [h]) else .isFalse (fun hc => by cases hc; exact h rfl)
  | .error _, .ok _ => .isFalse (fun hc => by cases hc)
  | .ok _, .error _ => .isFalse (fun hc => by cases hc)
  | .ok x, .ok y =>
    if h : x = y then .isTrue (by rw [h]) else .isFalse (fun hc => by cases hc; exact h rfl)

/-! ## Model-response parsing — `model.py`.

`parse_explore_rsp` / `parse_grid_rsp` first run `json.loads` inside a
`try/except json.JSONDecodeError`, then fall back to line-oriented regex
extraction inside a `try/except Exception`.  Crucially, the first `except`
clause catches ONLY `json.JSONDecodeError`, so exceptions raised while parsing
the `Action` field of a successfully decoded JSON object (IndexError from
`re.findall(...)[0]`, ValueError from `int(...)`, …) propagate out of the
parser; the fallback path is fully guarded and never raises. -/

/-- JSON whitespace skip. -/
def skipWs (cs : List Char) : List Char :=
  cs.dropWhile (fun c => c = ' ' ∨ c = '\t' ∨ c = '\n' ∨ c = '\r')

/-- Scans a JSON string body up to the closing quote (escape sequences are
outside the modelled fragment and fail). -/
def jStrAux : List Char → List Char → Option (String × List Char)
  | [], _ => none
  | c :: rest, acc =>
    if c = '"' then some ((acc.reverse).asString, rest)
    else if c = '\\' then none
    else jStrAux rest (c :: acc)

/-- Parses a JSON string literal at the head of the input. -/
def parseJString (cs : List Char) : Option (String × List Char) :=
  match cs with
  | '"' :: rest => jStrAux rest []
  | _ => none

/-- Parses `"k" : "v"` pairs separated by commas, up to the closing `}`. -/
def parsePairs : Nat → List Char → List (String × String) →
    Option (List (String × String) × List Char)
  | 0, _, _ => none
  | fuel + 1, cs, acc =>
    match parseJString (skipWs cs) with
    | none => none
    | some (k, rest) =>
      match skipWs rest with
      | ':' :: rest2 =>
        match parseJString (skipWs rest2) with
        | none => none
        | some (v, rest3) =>
          match skipWs rest3 with
          | ',' :: rest4 => parsePairs fuel rest4 (acc ++ [(k, v)])
          | '}' :: rest5 => some (acc ++ [(k, v)], rest5)
          | _ => none
      | _ => none

/-- Models Python `json.loads` on the fragment the explore/grid grammar uses: a
single flat object with string keys and string values (duplicate keys resolve
to the last occurrence, as in a Python dict).  Any other document is treated as
a decode failure (`json.JSONDecodeError`). -/
def jsonLoads (s : String) : Option (List (String × String)) :=
  match skipWs s.toList with
  | '{' :: rest =>
    (match skipWs rest with
     | '}' :: rest2 => if (skipWs rest2).isEmpty then some [] else none
     | rest2 =>
       match parsePairs (s.length + 1) rest2 [] with
       | some (ps, rest3) =>
         if (skipWs rest3).isEmpty then
           some (ps.foldl (fun d kv => kvSet d kv.1 kv.2) [])
         else none
       | none => none)
  | _ => none

/-- Models `data.get(k1) or data.get(k2, default)`: the `or` takes the second operand
when the first is `None` or an empty (falsy) string. -/
def getDual (data : List (String × String)) (k1 k2 default : String) : String :=
  match kvGet data k1 with
  | some v => if v ≠ "" then v else (kvGet data k2).getD default
  | none => (kvGet data k2).getD default

/-- Capture of the non-greedy group in `name\((.*?)\)` at the current position:
the characters up to the first `)`, failing if a newline (which `.` cannot
match) intervenes. -/
def capParen : List Char → List Char → Option String
  | [], _ => none
  | c :: rest, acc =>
    if c = ')' then some ((acc.reverse).asString)
    else if c = '\n' then none
    else capParen rest (c :: acc)

/-- First match of `re.findall(r"name\((.*?)\)", s)`: scan positions left to
right for `name(` followed by `)` on the same line. -/
def findParenAux (pre : List Char) : List Char → Option String
  | [] => none
  | c :: rest =>
    match (if pre.isPrefixOf (c :: rest) then capParen ((c :: rest).drop pre.length) [] else none) with
    | some cap => some cap
    | none => findParenAux pre rest

/-- Models `re.findall(rf"{name}\((.*?)\)", s)[0]` as an `Option`. -/
def findParen (name : String) (s : String) : Option String :=
  findParenAux (name ++ "(").toList s.toList

/-- First match of `re.findall(r"Marker: (.*?)$", s, re.MULTILINE)`: text after
the first occurrence of the marker, up to the end of its line. -/
def findMarkerAux (m : List Char) : List Char → Option String
  | [] => if m.isEmpty then some "" else none
  | c :: rest =>
    if m.isPrefixOf (c :: rest) then
      some (((c :: rest).drop m.length).takeWhile (fun ch => ch ≠ '\n')).asString
    else findMarkerAux m rest

def findMarker (marker s : String) : Option String :=
  findMarkerAux marker.toList s.toList

/-- The single-quote character (`'`). -/
def squote : Char := Char.ofNat 39

/-- Python `s.strip('"\'')`: strips leading and trailing quote characters. -/
def stripQuotes (s : String) : String :=
  let isQ := fun c => c = '"' ∨ c = squote
  (((s.toList.dropWhile isQ).reverse.dropWhile isQ).reverse).asString

/-- Python `s.startswith(c) and s.endswith(c)` for a one-character `c`. -/
def wrappedIn (s : String) (c : Char) : Bool :=
  s.toList.head? = some c ∧ s.toList.getLast? = some c

/-- Structured result of `_parse_action_string` (`model.py` lines 471–502). -/
inductive ActRes : Type
  | FINISH
  | tap (area : Int)
  | textA (input : String)
  | long_press (area : Int)
  | swipe (area : Int) (dir dist : String)
  | grid
  | errA (name : String)
deriving DecidableEq, Repr

/-- Function `_parse_action_string(act)`; `.error` models the uncaught exceptions
(IndexError from `findall(...)[0]`, ValueError from `int` or tuple unpacking). -/
def parse_action_string (act : String) : Except PyErr ActRes :=
  if pyContains "FINISH" act then .ok .FINISH
  else
    let act_name := pyStrip (pySplitParen0 act)
    if act_name = "tap" then
      match findParen "tap" act with
      | none => .error .indexError
      | some s =>
        match pyInt s with
        | none => .error .valueError
        | some n => .ok (.tap n)
    else if act_name = "text" then
      match findParen "text" act with
      | none => .error .indexError
      | some s =>
        let s' := if wrappedIn s '"' then pySlice1m1 s
                  else if wrappedIn s squote then pySlice1m1 s
                  else s
        .ok (.textA s')
    else if act_name = "long_press" then
      match findParen "long_press" act with
      | none => .error .indexError
      | some s =>
        match pyInt s with
        | none => .error .valueError
        | some n => .ok (.long_press n)
    else if act_name = "swipe" then
      match findParen "swipe" act with
      | none => .error .indexError
      | some params =>
        match pySplit ',' params with
        | [a, d1, d2] =>
          match pyInt a with
          | none => .error .valueError
          | some n => .ok (.swipe n (stripQuotes (pyStrip d1)) (stripQuotes (pyStrip d2)))
        | _ => .error .valueError
    else if act_name = "grid" then .ok .grid
    else .ok (.errA act_name)

/-- The heterogeneous lists returned by `parse_explore_rsp`. -/
inductive ExploreRes : Type
  | FINISH (obs think act summary : String)
  | tap (area : Int) (summary obs think act : String)
  | textA (input summary obs think act : String)
  | long_press (area : Int) (summary obs think act : String)
  | swipe (area : Int) (dir dist summary obs think act : String)
  | grid (obs think act summary : String)
  | ERROR
deriving DecidableEq, Repr

/-- The fallback regex path of `parse_explore_rsp` (`model.py` lines 549–591),
wrapped in `except Exception`, hence total: every internal failure yields
`ERROR`. -/
def fallbackExplore (rsp : String) : ExploreRes :=
  match findMarker "Observation: " rsp, findMarker "Thought: " rsp,
        findMarker "Action: " rsp with
  | some obs0, some think0, some act0 =>
    let observation := pyStrip obs0
    let think := pyStrip think0
    let act := pyStrip act0
    let last_act := match findMarker "Summary: " rsp with
                    | some s => pyStrip s
                    | none => "No summary available"
    if pyContains "FINISH" act then .FINISH observation think act last_act
    else
      let act_name := pyStrip (pySplitParen0 act)
      if act_name = "tap" then
        match findParen "tap" act with
        | none => .ERROR
        | some s =>
          match pyInt s with
          | none => .ERROR
          | some n => .tap n last_act observation think act
      else if act_name = "text" then
        match findParen "text" act with
        | none => .ERROR
        | some s => .textA (pySlice1m1 s) last_act observation think act
      else if act_name = "long_press" then
        match findParen "long_press" act with
        | none => .ERROR
        | some s =>
          match pyInt s with
          | none => .ERROR
          | some n => .long_press n last_act observation think act
      else if act_name = "swipe" then
        match findParen "swipe" act with
        | none => .ERROR
        | some params =>
          match pySplit ',' params with
          | [a, d1, d2] =>
            match pyInt a with
            | none => .ERROR
            | some n => .swipe n (pySlice1m1 (pyStrip d1)) (pySlice1m1 (pyStrip d2))
                          last_act observation think act
          | _ => .ERROR
      else if act_name = "grid" then .grid observation think act last_act
      else .ERROR
  | _, _, _ => .ERROR

/-- Function `parse_explore_rsp(rsp)` (`model.py` lines 505–591).  The JSON path's
`except` clause catches only `json.JSONDecodeError`, so action-parsing
exceptions (`.error`) escape the function; the regex fallback is total. -/
def parse_explore_rsp (rsp : String) : Except PyErr ExploreRes :=
  match jsonLoads rsp with
  | some data =>
    let observation := getDual data "Observation" "observation" ""
    let think := getDual data "Thought" "thought" ""
    let act := getDual data "Action" "action" ""
    let last_act := getDual data "Summary" "summary" "No summary available"
    match parse_action_string act with
    | .error e => .error e
    | .ok .FINISH => .ok (.FINISH observation think act last_act)
    | .ok (.errA _) => .ok .ERROR
    | .ok (.tap n) => .ok (.tap n last_act observation think act)
    | .ok (.textA s) => .ok (.textA s last_act observation think act)
    | .ok (.long_press n) => .ok (.long_press n last_act observation think act)
    | .ok (.swipe n d1 d2) => .ok (.swipe n d1 d2 last_act observation think act)
    | .ok .grid => .ok (.grid observation think act last_act)
  | none => .ok (fallbackExplore rsp)

/-- Structured result of `_parse_grid_action_string` (`model.py` lines 594–621). -/
inductive GridActRes : Type
  | FINISH
  | tap_grid (area : Int) (subarea : String)
  | long_press_grid (area : Int) (subarea : String)
  | swipe_grid (startArea : Int) (startSub : String) (endArea : Int) (endSub : String)
  | grid
  | errA (name : String)
deriving DecidableEq, Repr

/-- Function `_parse_grid_action_string(act)`; `params[i]` on a too-short split list is
an IndexError, `int` failures are ValueErrors. -/
def parse_grid_action_string (act : String) : Except PyErr GridActRes :=
  if pyContains "FINISH" act then .ok .FINISH
  else
    let act_name := pyStrip (pySplitParen0 act)
    if act_name = "tap" then
      match findParen "tap" act with
      | none => .error .indexError
      | some params =>
        let ps := pySplit ',' params
        match ps.get? 0 with
        | none => .error .indexError
        | some p0 =>
          match pyInt (pyStrip p0) with
          | none => .error .valueError
          | some n =>
            match ps.get? 1 with
            | none => .error .indexError
            | some p1 => .ok (.tap_grid n (stripQuotes (pyStrip p1)))
    else if act_name = "long_press" then
      match findParen "long_press" act with
      | none => .error .indexError
      | some params =>
        let ps := pySplit ',' params
        match ps.get? 0 with
        | none => .error .indexError
        | some p0 =>
          match pyInt (pyStrip p0) with
          | none => .error .valueError
          | some n =>
            match ps.get? 1 with
            | none => .error .indexError
            | some p1 => .ok (.long_press_grid n (stripQuotes (pyStrip p1)))
    else if act_name = "swipe" then
      match findParen "swipe" act with
      | none => .error .indexError
      | some params =>
        let ps := pySplit ',' params
        match ps.get? 0, ps.get? 1, ps.get? 2, ps.get? 3 with
        | some p0, some p1, some p2, some p3 =>
          match pyInt (pyStrip p0), pyInt (pyStrip p2) with
          | some n0, some n2 =>
            .ok (.swipe_grid n0 (stripQuotes (pyStrip p1)) n2 (stripQuotes (pyStrip p3)))
          | _, _ => .error .valueError
        | _, _, _, _ => .error .indexError
    else if act_name = "grid" then .ok .grid
    else .ok (.errA act_name)

/-- The heterogeneous lists returned by `parse_grid_rsp`. -/
inductive GridRes : Type
  | FINISH (obs think act summary : String)
  | tap_grid (area : Int) (subarea summary obs think act : String)
  | long_press_grid (area : Int) (subarea summary obs think act : String)
  | swipe_grid (startArea : Int) (startSub : String) (endArea : Int)
      (endSub summary obs think act : String)
  | grid (obs think act summary : String)
  | ERROR
deriving DecidableEq, Repr

/-- The fallback regex path of `parse_grid_rsp` (`model.py` lines 664–706),
wrapped in `except Exception`, hence total. -/
def fallbackGrid (rsp : String) : GridRes :=
  match findMarker "Observation: " rsp, findMarker "Thought: " rsp,
        findMarker "Action: " rsp with
  | some obs0, some think0, some act0 =>
    let observation := pyStrip obs0
    let think := pyStrip think0
    let act := pyStrip act0
    let last_act := match findMarker "Summary: " rsp with
                    | some s => pyStrip s
                    | none => "No summary available"
    if pyContains "FINISH" act then .FINISH observation think act last_act
    else
      let act_name := pyStrip (pySplitParen0 act)
      if act_name = "tap" then
        match findParen "tap" act with
        | none => .ERROR
        | some params =>
          let ps := pySplit ',' params
          match ps.get? 0, ps.get? 1 with
          | some p0, some p1 =>
            match pyInt (pyStrip p0) with
            | none => .ERROR
            | some n => .tap_grid n (pySlice1m1 (pyStrip p1)) last_act observation think act
          | _, _ => .ERROR
      else if act_name = "long_press" then
        match findParen "long_press" act with
        | none => .ERROR
        | some params =>
          let ps := pySplit ',' params
          match ps.get? 0, ps.get? 1 with
          | some p0, some p1 =>
            match pyInt (pyStrip p0) with
            | none => .ERROR
            | some n => .long_press_grid n (pySlice1m1 (pyStrip p1)) last_act observation think act
          | _, _ => .ERROR
      else if act_name = "swipe" then
        match findParen "swipe" act with
        | none => .ERROR
        | some params =>
          let ps := pySplit ',' params
          match ps.get? 0, ps.get? 1, ps.get? 2, ps.get? 3 with
          | some p0, some p1, some p2, some p3 =>
            match pyInt (pyStrip p0), pyInt (pyStrip p2) with
            | some n0, some n2 =>
              .swipe_grid n0 (pySlice1m1 (pyStrip p1)) n2 (pySlice1m1 (pyStrip p3))
                last_act observation think act
            | _, _ => .ERROR
          | _, _, _, _ => .ERROR
      else if act_name = "grid" then .grid observation think act last_act
      else .ERROR
  | _, _, _ => .ERROR

/-- Function `parse_grid_rsp(rsp)` (`model.py` lines 624–706), same dual-path structure
and the same narrow `except json.JSONDecodeError`. -/
def parse_grid_rsp (rsp : String) : Except PyErr GridRes :=
  match jsonLoads rsp with
  | some data =>
    let observation := getDual data "Observation" "observation" ""
    let think := getDual data "Thought" "thought" ""
    let act := getDual data "Action" "action" ""
    let last_act := getDual data "Summary" "summary" "No summary available"
    match parse_grid_action_string act with
    | .error e => .error e
    | .ok .FINISH => .ok (.FINISH observation think act last_act)
    | .ok (.errA _) => .ok .ERROR
    | .ok (.tap_grid n sub) => .ok (.tap_grid n sub last_act observation think act)
    | .ok (.long_press_grid n sub) =>
      .ok (.long_press_grid n sub last_act observation think act)
    | .ok (.swipe_grid n0 s0 n1 s1) =>
      .ok (.swipe_grid n0 s0 n1 s1 last_act observation think act)
    | .ok .grid => .ok (.grid observation think act last_act)
  | none => .ok (fallbackGrid rsp)

/-! ## The task-loop controller — `self_explorer.py` lines 260–696.

External collaborators (screen capture, UI-tree enumeration, the model gateway,
the action executor) are supplied per round through a `RoundEnv`; the loop body
itself — branching, state mutation, `break`/`continue`, exceptions — is
translated from the source.  The grid-coordinate computation
(`calculate_grid_coordinates`, embedded above as `gridUnit`) feeds only the
executor, whose outcome the environment reports as a boolean. -/

/-- Result of `parse_reflect_rsp`: `["ERROR"]` or `[decision, think, doc]`
(`doc` is never `None` on the `BACK`/`CONTINUE`/`SUCCESS` decisions the doc
block consumes — the reflect parser substitutes a placeholder). -/
inductive ReflectRes : Type
  | errR
  | res (decision think doc : String)
deriving DecidableEq, Repr

/-- The per-round inputs from the external collaborators. -/
structure RoundEnv : Type where
  screenshot_before_ok : Bool
  xml_ok : Bool
  cand_clickable : List Elem
  cand_focusable : List Elem
  explore_ok : Bool
  explore_rsp : String
  exec_ok : Bool
  grid_ok : Bool
  grid_rsp : String
  grid_exec_ok : Bool
  screenshot_after_ok : Bool
  reflect_ok : Bool
  reflect_res : ReflectRes
  back_ok : Bool
deriving DecidableEq, Repr

/-- The controller's cross-round state (`round_count`, `doc_count`,
`useless_list`, `last_act`, `task_complete` from lines 260–264, plus the
loop-scope bounding-box variables `tl`/`br` — `none` when still unbound in this
run — and the on-disk documentation store). -/
structure LoopState : Type where
  round_count : Nat
  doc_count : Nat
  useless_list : List String
  last_act : String
  task_complete : Bool
  tlbr : Option ((Int × Int) × (Int × Int))
  docs : DocStore
deriving DecidableEq, Repr

/-- How one iteration of the `while` loop ends: fall through to the next round
(`continue` / end of body), `break`, or an uncaught Python exception. -/
inductive RoundExit : Type
  | next
  | broke
  | crash (e : PyErr)
deriving DecidableEq, Repr

/-- State before the first round (lines 260–264): `round_count = 0`,
`useless_list = set()`, `last_act = "None"`, `tl`/`br` unbound; the
documentation store is whatever is on disk. -/
def initState (docs : DocStore) : LoopState :=
  { round_count := 0, doc_count := 0, useless_list := [], last_act := "None"
  , task_complete := false, tlbr := none, docs := docs }

/-- The reflection-decision handling (`self_explorer` lines 644–684): updates
`useless_list`/`last_act`, runs `controller.back()` on `BACK`, then the
documentation block. -/
def reflectStep (st : LoopState) (resource_id act_name decision doc : String)
    (back_ok : Bool) : LoopState × RoundExit :=
  if decision = "ERROR" then (st, .broke)
  else if decision = "INEFFECTIVE" then
    ({ st with useless_list := pyAdd resource_id st.useless_list, last_act := "None" }, .next)
  else if decision = "BACK" ∨ decision = "CONTINUE" ∨ decision = "SUCCESS" then
    let st1 := if decision = "BACK" ∨ decision = "CONTINUE" then
                 { st with useless_list := pyAdd resource_id st.useless_list
                         , last_act := "None" }
               else st
    if decision = "BACK" ∧ back_ok = false then (st1, .broke)
    else
      match recordDoc st1.docs resource_id act_name doc with
      | .error e => (st1, .crash e)
      | .ok (docs', wrote) =>
        if wrote then
          ({ st1 with docs := docs', doc_count := st1.doc_count + 1 }, .next)
        else (st1, .next)
  else (st, .broke)

/-- The reflection call (lines 615–684): gateway status, then
`res = parse_reflect_rsp(...)`; on `["ERROR"]` the subsequent `res[1]` raises
IndexError. -/
def doReflect (st : LoopState) (env : RoundEnv) (act_name resource_id : String) :
    LoopState × RoundExit :=
  if env.reflect_ok = false then (st, .broke)
  else
    match env.reflect_res with
    | .errR => (st, .crash .indexError)
    | .res decision _think doc => reflectStep st resource_id act_name decision doc env.back_ok

/-- The after-action tail of the loop body (lines 588–610): after-screenshot,
then the reflection dispatch keyed on the round's `act_name` — note `"grid"`
matches no branch and falls into `print("ERROR: Undefined act!"); break`. -/
def postAction (st : LoopState) (env : RoundEnv) (act_name resource_id dir : String) :
    LoopState × RoundExit :=
  if env.screenshot_after_ok = false then (st, .broke)
  else if act_name = "tap" then doReflect st env "tap" resource_id
  else if act_name = "text" then (st, .next)
  else if act_name = "long_press" then doReflect st env "long_press" resource_id
  else if act_name = "swipe" then
    let kind := if dir = "up" ∨ dir = "down" then "v_swipe"
                else if dir = "left" ∨ dir = "right" then "h_swipe"
                else "swipe"
    doReflect st env kind resource_id
  else (st, .broke)

/-- One iteration of the `while round_count < MAX_ROUNDS` body
(`self_explorer` lines 272–685). -/
def runRound (minDist : Int) (st : LoopState) (env : RoundEnv) :
    LoopState × RoundExit :=
  let st := { st with round_count := st.round_count + 1 }
  if env.screenshot_before_ok = false ∨ env.xml_ok = false then (st, .broke)
  else
    let clickable_list := dedupByDist minDist env.cand_clickable
    let focusable_list := dedupByDist minDist env.cand_focusable
    let elem_list := buildElemList clickable_list focusable_list st.useless_list minDist
    if env.explore_ok = false then (st, .broke)
    else
      match parse_explore_rsp env.explore_rsp with
      | .error e => (st, .crash e)
      | .ok res =>
        match res with
        | .FINISH _ _ _ summary =>
          ({ st with last_act := summary, task_complete := true }, .broke)
        | .ERROR => ({ st with last_act := "Unknown" }, .broke)
        | .tap area summary _ _ _ =>
          let st := { st with last_act := summary }
          (match pyIndex elem_list (area - 1) with
           | none => (st, .crash .indexError)
           | some e =>
             let st := { st with tlbr := some e.bbox }
             if env.exec_ok = false then (st, .broke)
             else postAction st env "tap" e.uid "")
        | .textA _input summary _ _ _ =>
          let st := { st with last_act := summary }
          (match st.tlbr with
           | none => (st, .crash .nameError)
           | some _ =>
             if env.exec_ok = false then (st, .broke)
             else postAction st env "text" "" "")
        | .long_press area summary _ _ _ =>
          let st := { st with last_act := summary }
          (match pyIndex elem_list (area - 1) with
           | none => (st, .crash .indexError)
           | some e =>
             let st := { st with tlbr := some e.bbox }
             if env.exec_ok = false then (st, .broke)
             else postAction st env "long_press" e.uid "")
        | .swipe area dir _dist summary _ _ _ =>
          let st := { st with last_act := summary }
          (match pyIndex elem_list (area - 1) with
           | none => (st, .crash .indexError)
           | some e =>
             let st := { st with tlbr := some e.bbox }
             if env.exec_ok = false then (st, .broke)
             else postAction st env "swipe" e.uid dir)
        | .grid _ _ _ summary =>
          let st := { st with last_act := summary }
          if env.grid_ok = false then (st, .broke)
          else
            match parse_grid_rsp env.grid_rsp with
            | .error e => (st, .crash e)
            | .ok gres =>
              match gres with
              | .FINISH _ _ _ s2 =>
                ({ st with last_act := s2, task_complete := true }, .broke)
              | .tap_grid _ _ s2 _ _ _ =>
                let st := { st with last_act := s2 }
                if env.grid_exec_ok = false then (st, .broke)
                else postAction st env "grid" "" ""
              | .long_press_grid _ _ s2 _ _ _ =>
                let st := { st with last_act := s2 }
                if env.grid_exec_ok = false then (st, .broke)
                else postAction st env "grid" "" ""
              | .swipe_grid _ _ _ _ s2 _ _ _ =>
                let st := { st with last_act := s2 }
                if env.grid_exec_ok = false then (st, .broke)
                else postAction st env "grid" "" ""
              | .grid _ _ _ _ => (st, .broke)
              | .ERROR => (st, .broke)

/-- The `while round_count < MAX_ROUNDS` loop; the fuel argument is an upper
bound on the remaining iterations (each iteration increments `round_count`).
Returns the final state and the uncaught exception, if one was raised. -/
def loopGo (minDist : Int) (maxRounds : Nat) (envs : Nat → RoundEnv) :
    Nat → LoopState → LoopState × Option PyErr
  | 0, st => (st, none)
  | fuel + 1, st =>
    if st.round_count < maxRounds then
      match runRound minDist st (envs st.round_count) with
      | (st', .next) => loopGo minDist maxRounds envs fuel st'
      | (st', .broke) => (st', none)
      | (st', .crash e) => (st', some e)
    else (st, none)

/-- The whole run: loop from the initial state. -/
def runLoop (minDist : Int) (maxRounds : Nat) (docs : DocStore)
    (envs : Nat → RoundEnv) : LoopState × Option PyErr :=
  loopGo minDist maxRounds envs maxRounds (initState docs)

/-- The process exit code (`self_explorer` lines 687–696); an uncaught
exception terminates the interpreter with code 1 before that block runs. -/
def exitCode (maxRounds : Nat) (r : LoopState × Option PyErr) : Nat :=
  match r.2 with
  | some _ => 1
  | none =>
    if r.1.task_complete then 0
    else if r.1.round_count = maxRounds then 0
    else 1

/-! ## Concrete scenarios used to settle individual claims. -/

/-- A clickable element whose uid has been judged useless in an earlier round. -/
def c8A : Elem := ⟨"A", ((0, 0), (10, 10))⟩

/-- A focusable candidate sharing `c8A`'s center. -/
def c8F1 : Elem := ⟨"F1", ((0, 0), (10, 10))⟩

/-- A focusable candidate far from everything else. -/
def c8F2 : Elem := ⟨"F2", ((2000, 2000), (2010, 2010))⟩

/-- A round in which the model answers `grid()` and, on the grid re-prompt,
`tap(1, "center")`; every external call succeeds. -/
def c3Env : RoundEnv :=
  { screenshot_before_ok := true, xml_ok := true
  , cand_clickable := [⟨"btn", ((0, 0), (10, 10))⟩], cand_focusable := []
  , explore_ok := true
  , explore_rsp := "Observation: o\nThought: t\nAction: grid()\nSummary: open grid"
  , exec_ok := true
  , grid_ok := true
  , grid_rsp := "Observation: o2\nThought: t2\nAction: tap(1, \"center\")\nSummary: grid tap"
  , grid_exec_ok := true
  , screenshot_after_ok := true
  , reflect_ok := true
  , reflect_res := .res "SUCCESS" "looks good" "tapping this works"
  , back_ok := true }

/-- A round whose model reply names the unsupported action `frobnicate(1)`,
which parses to the canonical `ERROR` result and aborts the round. -/
def c5ErrEnv : RoundEnv :=
  { screenshot_before_ok := true, xml_ok := true
  , cand_clickable := [], cand_focusable := []
  , explore_ok := true
  , explore_rsp := "Observation: o\nThought: t\nAction: frobnicate(1)\nSummary: s"
  , exec_ok := true, grid_ok := true, grid_rsp := "", grid_exec_ok := true
  , screenshot_after_ok := true, reflect_ok := true
  , reflect_res := .res "SUCCESS" "good" "tap works", back_ok := true }

/-- A round that taps element 1 and reflects `SUCCESS`; repeating it runs the
loop to the round limit without a `Finish`. -/
def c5okEnv : RoundEnv :=
  { screenshot_before_ok := true, xml_ok := true
  , cand_clickable := [⟨"btn", ((0, 0), (10, 10))⟩], cand_focusable := []
  , explore_ok := true
  , explore_rsp := "Observation: o\nThought: t\nAction: tap(1)\nSummary: tapped"
  , exec_ok := true, grid_ok := true, grid_rsp := "", grid_exec_ok := true
  , screenshot_after_ok := true, reflect_ok := true
  , reflect_res := .res "SUCCESS" "good" "tap works", back_ok := true }

/-- A round whose first model reply is a `text(...)` action. -/
def c10Env : RoundEnv :=
  { screenshot_before_ok := true, xml_ok := true
  , cand_clickable := [⟨"btn", ((0, 0), (10, 10))⟩], cand_focusable := []
  , explore_ok := true
  , explore_rsp := "Observation: o\nThought: t\nAction: text(\"hello\")\nSummary: typed"
  , exec_ok := true, grid_ok := true, grid_rsp := "", grid_exec_ok := true
  , screenshot_after_ok := true, reflect_ok := true
  , reflect_res := .res "SUCCESS" "good" "typing works", back_ok := true }

/-! # Theorems -/

/-! ## Helper lemmas about the grid unit scan. -/

theorem scanUnit_eq_first (n : Nat) (fuel : Nat) :
    ∀ i j : Nat, i ≤ j → j < i + fuel →
      (n % j = 0 ∧ 120 ≤ j ∧ j ≤ 180) →
      (∀ k, i ≤ k → k < j → ¬(n % k = 0 ∧ 120 ≤ k ∧ k ≤ 180)) →
      scanUnit n i fuel = (j : Int) := by
  induction fuel with
  | zero => intro i j h1 h2 _ _; omega
  | succ f ih =>
    intro i j h1 h2 hP hmin
    simp only [scanUnit]
    by_cases hi : n % i = 0 ∧ 120 ≤ i ∧ i ≤ 180
    · rw [if_pos hi]
      have hij : i = j := by
        rcases Nat.lt_or_ge i j with h | h
        · exact absurd hi (hmin i le_rfl h)
        · omega
      rw [hij]
    · rw [if_neg hi]
      apply ih (i + 1) j
      · rcases Nat.eq_or_lt_of_le h1 with rfl | h
        · exact absurd hP hi
        · omega
      · omega
      · exact hP
      · intro k hk1 hk2; exact hmin k (by omega) hk2

theorem scanUnit_miss (n : Nat) (fuel : Nat) :
    ∀ i : Nat, (∀ k, i ≤ k → k < i + fuel → ¬(n % k = 0 ∧ 120 ≤ k ∧ k ≤ 180)) →
      scanUnit n i fuel = -1 := by
  induction fuel with
  | zero => intro i _; rfl
  | succ f ih =>
    intro i hmiss
    simp only [scanUnit]
    rw [if_neg (hmiss i le_rfl (by omega))]
    exact ih (i + 1) (fun k hk1 hk2 => hmiss k (by omega) (by omega))

/-- C6 — corrected.  The cell size used for the overlay and for grid coordinate
computation is the SMALLEST divisor of the screen dimension in the range
120–180 (the scan runs upward from 1 and returns the first hit), with the fixed
default 120 when no divisor lies in the range. -/
theorem C6_unit_len_smallest_divisor :
    (∀ n d : Nat, 0 < n → d ∣ n → 120 ≤ d → d ≤ 180 →
      gridUnit n ∣ n ∧ 120 ≤ gridUnit n ∧ gridUnit n ≤ 180 ∧ gridUnit n ≤ d) ∧
    (∀ n : Nat, (∀ d : Nat, d ≤ 180 → d ∣ n → ¬(120 ≤ d ∧ d ≤ 180)) →
      gridUnit n = 120) := by
  constructor
  · intro n d hn hdvd h120 h180
    have hmod : n % d = 0 := Nat.dvd_iff_mod_eq_zero.mp hdvd
    have hex : ∃ j, n % j = 0 ∧ 120 ≤ j ∧ j ≤ 180 := ⟨d, hmod, h120, h180⟩
    have hspec := Nat.find_spec hex
    have hjd : Nat.find hex ≤ d := Nat.find_min' hex ⟨hmod, h120, h180⟩
    have hjdvd : Nat.find hex ∣ n :=
      Nat.dvd_iff_mod_eq_zero.mpr hspec.1
    have hjn : Nat.find hex ≤ n := Nat.le_of_dvd hn hjdvd
    have hscan : scanUnit n 1 n = ((Nat.find hex : Nat) : Int) := by
      apply scanUnit_eq_first n n 1 (Nat.find hex)
      · have := hspec.2.1; omega
      · omega
      · exact hspec
      · intro k _ hk2
        exact Nat.find_min hex hk2
    have hgrid : gridUnit n = Nat.find hex := by
      rw [gridUnit, get_unit_len, hscan,
        if_neg (not_lt.mpr (Int.natCast_nonneg (Nat.find hex))), Int.toNat_natCast]
    rw [hgrid]
    exact ⟨hjdvd, hspec.2.1, hspec.2.2, hjd⟩
  · intro n hno
    have hmiss : ∀ k, 1 ≤ k → k < 1 + n → ¬(n % k = 0 ∧ 120 ≤ k ∧ k ≤ 180) := by
      rintro k _ _ ⟨hm, hk1, hk2⟩
      exact hno k hk2 (Nat.dvd_iff_mod_eq_zero.mpr hm) ⟨hk1, hk2⟩
    have h1 : get_unit_len n = -1 := scanUnit_miss n n 1 hmiss
    rw [gridUnit, h1, if_pos (by decide : (-1 : Int) < 0)]

set_option maxRecDepth 8000 in
/-- C6 — counterexample to the claim as stated: 720 has the divisors 120, 144
and 180 in the range, the spec's "largest divisor" reading picks 180, but the
code's scan returns the smallest, 120. -/
theorem C6_unit_len_not_largest_divisor :
    gridUnit 720 = 120 ∧ spec_gridUnit_largest 720 = 180 ∧
    gridUnit 720 ≠ spec_gridUnit_largest 720 := by decide

set_option maxRecDepth 8000 in
/-- Witness for `C6_unit_len_smallest_divisor` at `n = 720, d = 180` and (for
the no-divisor default clause) `n = 100`. -/
theorem C6_unit_len_witness :
    (gridUnit 720 ∣ 720 ∧ 120 ≤ gridUnit 720 ∧ gridUnit 720 ≤ 180 ∧
      gridUnit 720 ≤ 180) ∧ gridUnit 100 = 120 :=
  ⟨C6_unit_len_smallest_divisor.1 720 180 (by decide) (by decide) (by decide) (by decide),
   C6_unit_len_smallest_divisor.2 100 (by decide)⟩

/-- C7 — amended part: the `ClaudeConnector` override of
`convert_coords_to_pixels` scales by `x/1000*W`, `y/1000*H` and clamps, so its
result lies inside `[0,W) × [0,H)` for every integer point and positive device
size. -/
theorem C7_claude_conversion_in_bounds :
    ∀ (p : Int × Int) (w h : Nat), 1 ≤ w → 1 ≤ h →
      0 ≤ (claude_convert_coords_to_pixels p (w, h)).1 ∧
      (claude_convert_coords_to_pixels p (w, h)).1 < (w : Int) ∧
      0 ≤ (claude_convert_coords_to_pixels p (w, h)).2 ∧
      (claude_convert_coords_to_pixels p (w, h)).2 < (h : Int) := by
  intro p w h hw hh
  have hw' : (1 : Int) ≤ (w : Int) := by exact_mod_cast hw
  have hh' : (1 : Int) ≤ (h : Int) := by exact_mod_cast hh
  simp only [claude_convert_coords_to_pixels]
  refine ⟨le_max_left 0 _, ?_, le_max_left 0 _, ?_⟩
  · exact max_lt (by omega) (lt_of_le_of_lt (min_le_right _ _) (by omega))
  · exact max_lt (by omega) (lt_of_le_of_lt (min_le_right _ _) (by omega))

/-- C7 — counterexample to the claim as stated: the `BaseConnector` default
conversion (the one inherited by connectors that do not override it) only
scales and does NOT clamp, so the normalized point `(1000, 1000)` on a 100×100
screen maps to `(100, 100)`, outside `[0,100) × [0,100)`. -/
theorem C7_base_conversion_unclamped :
    base_convert_coords_to_pixels (1000, 1000) (100, 100) = (100, 100) ∧
    ¬((base_convert_coords_to_pixels (1000, 1000) (100, 100)).1 < (100 : Int)) := by
  decide

/-- Witness for `C7_claude_conversion_in_bounds` at an out-of-range point. -/
theorem C7_claude_conversion_witness :
    0 ≤ (claude_convert_coords_to_pixels (1500, -200) (1080, 1920)).1 ∧
    (claude_convert_coords_to_pixels (1500, -200) (1080, 1920)).1 < (1080 : Int) ∧
    0 ≤ (claude_convert_coords_to_pixels (1500, -200) (1080, 1920)).2 ∧
    (claude_convert_coords_to_pixels (1500, -200) (1080, 1920)).2 < (1920 : Int) :=
  C7_claude_conversion_in_bounds (1500, -200) 1080 1920 (by decide) (by decide)

/-- C9 — confirmed: `get_connector` is a pure function of the model name; every
name whose lowercase form does not contain `"gelab"` selects the
`DefaultConnector`, and no name at all can select the `ClaudeConnector`
(the coordinate-based list minus `"gelab"` is empty). -/
theorem C9_connector_selection :
    (∀ name : String, pyContains "gelab" (pyLower name) = false →
      get_connector name = ConnectorKind.default) ∧
    (∀ name : String, get_connector name ≠ ConnectorKind.claude) := by
  have hfilter : COORDINATE_BASED_MODELS.filter (fun m => m ≠ "gelab") = [] := by decide
  constructor
  · intro name h
    simp only [get_connector]
    rw [hfilter, if_neg (by simp [h])]
    simp
  · intro name
    simp only [get_connector]
    rw [hfilter]
    by_cases hg : pyContains "gelab" (pyLower name) = true
    · rw [if_pos hg]; simp
    · rw [if_neg hg]; simp

/-- Witness for `C9_connector_selection` at the model name `"gpt-4o"`. -/
theorem C9_connector_selection_witness :
    get_connector "gpt-4o" = ConnectorKind.default :=
  C9_connector_selection.1 "gpt-4o" (by decide)

/-- C1 — code bug: `parse_explore_rsp`'s structured path catches only
`json.JSONDecodeError`, so the valid-JSON reply `{"Action": "tap"}` (whose
action field has no parenthesised argument) raises IndexError out of the
parser, while the same malformed action in plain-text form is safely converted
to the canonical `ERROR` result by the fully guarded fallback path. -/
theorem C1_structured_action_exception_escapes :
    parse_explore_rsp "\x7b\"Action\": \"tap\"\x7d" = Except.error PyErr.indexError ∧
    parse_explore_rsp "Observation: o\nThought: t\nAction: tap" =
      Except.ok ExploreRes.ERROR := by decide

/-! ## Helper lemmas about the documentation store. -/

theorem kvGet_kvSet_self {β : Type} (l : List (String × β)) (k : String) (v : β) :
    kvGet (kvSet l k v) k = some v := by
  induction l with
  | nil => simp [kvSet, kvGet]
  | cons hd tl ih =>
    obtain ⟨k', v'⟩ := hd
    by_cases h : k' = k
    · simp [kvSet, kvGet, h]
    · simp [kvSet, kvGet, h, ih]

/-- C4 — confirmed.  Documentation-store behaviour of the write block:
recording over an existing non-empty slot is a no-op on the store; a second
record of the same non-empty text changes nothing after the first; recording
under an unknown uid inserts the fresh five-slot template with the one slot
filled; and for each of the five action kinds the fresh record has exactly one
slot per kind. -/
theorem C4_record_idempotent_and_fresh_insert :
    (∀ (store : DocStore) (uid kind doc : String) (content : DocRecord) (existing : String),
      kvGet store uid = some content → kvGet content kind = some existing →
      existing ≠ "" → recordDoc store uid kind doc = Except.ok (store, false)) ∧
    (∀ (store : DocStore) (uid kind doc : String) (s' : DocStore) (w : Bool),
      doc ≠ "" → recordDoc store uid kind doc = Except.ok (s', w) →
      recordDoc s' uid kind doc = Except.ok (s', false)) ∧
    (∀ (store : DocStore) (uid kind doc : String),
      kvGet store uid = none →
      recordDoc store uid kind doc =
        Except.ok (kvSet store uid (kvSet docTemplate kind doc), true)) ∧
    (∀ kind : String, kind ∈ ["tap", "text", "v_swipe", "h_swipe", "long_press"] →
      ∀ doc : String, (kvSet docTemplate kind doc).map Prod.fst =
        ["tap", "text", "v_swipe", "h_swipe", "long_press"]) := by
  refine ⟨?_, ?_, ?_, ?_⟩
  · intro store uid kind doc content existing h1 h2 h3
    simp [recordDoc, h1, h2, h3]
  · intro store uid kind doc s' w hdoc hrec
    cases h1 : kvGet store uid with
    | some content =>
      cases h2 : kvGet content kind with
      | none => simp [recordDoc, h1, h2] at hrec
      | some existing =>
        by_cases h3 : existing ≠ ""
        · simp [recordDoc, h1, h2, h3] at hrec
          obtain ⟨rfl, -⟩ := hrec
          simp [recordDoc, h1, h2, h3]
        · simp only [ne_eq, not_not] at h3
          simp [recordDoc, h1, h2, h3] at hrec
          obtain ⟨rfl, -⟩ := hrec
          simp [recordDoc, kvGet_kvSet_self, hdoc]
    | none =>
      simp [recordDoc, h1] at hrec
      obtain ⟨rfl, -⟩ := hrec
      simp [recordDoc, kvGet_kvSet_self, hdoc]
  · intro store uid kind doc h
    simp [recordDoc, h]
  · intro kind hmem doc
    simp only [List.mem_cons, List.not_mem_nil, or_false] at hmem
    rcases hmem with rfl | rfl | rfl | rfl | rfl <;> simp [docTemplate, kvSet]

/-- Witness for `C4_record_idempotent_and_fresh_insert`: a concrete double
record under uid `"e1"`, kind `"tap"`. -/
theorem C4_record_witness :
    recordDoc
      [("e1", [("tap", "does"), ("text", ""), ("v_swipe", ""), ("h_swipe", ""),
        ("long_press", "")])] "e1" "tap" "does" =
      Except.ok
        ([("e1", [("tap", "does"), ("text", ""), ("v_swipe", ""), ("h_swipe", ""),
          ("long_press", "")])], false) :=
  C4_record_idempotent_and_fresh_insert.2.1 [] "e1" "tap" "does" _ true
    (by decide) (by decide)

/-! ## Helper lemmas about distance dedup and the element list. -/

theorem distSq_comm (c c' : Int × Int) : distSq c c' = distSq c' c := by
  simp only [distSq]; ring

theorem closeToAny_false_iff {c : Int × Int} {l : List Elem} {m : Int} :
    closeToAny c l m = false ↔ ∀ e ∈ l, m ^ 2 < distSq c (center e) := by
  simp only [closeToAny, List.any_eq_false, decide_eq_true_eq]
  constructor
  · intro h e he; exact lt_of_not_le (h e he)
  · intro h e he; exact not_le_of_lt (h e he)

theorem dedupByDist_pairwise (m : Int) (cands : List Elem) :
    (dedupByDist m cands).Pairwise
      (fun a b => m ^ 2 < distSq (center a) (center b)) := by
  have key : ∀ (cs acc : List Elem),
      acc.Pairwise (fun a b => m ^ 2 < distSq (center a) (center b)) →
      (cs.foldl (fun kept e =>
        if closeToAny (center e) kept m then kept else kept ++ [e]) acc).Pairwise
        (fun a b => m ^ 2 < distSq (center a) (center b)) := by
    intro cs
    induction cs with
    | nil => intro acc h; simpa using h
    | cons e cs ih =>
      intro acc h
      simp only [List.foldl_cons]
      by_cases hc : closeToAny (center e) acc m = true
      · rw [if_pos hc]; exact ih acc h
      · rw [if_neg hc]
        apply ih
        rw [List.pairwise_append]
        refine ⟨h, by simp, ?_⟩
        intro a ha b hb
        simp only [List.mem_singleton] at hb
        subst hb
        have hfar := closeToAny_false_iff.mp (by simpa using hc) a ha
        rw [distSq_comm] at hfar
        exact hfar
  exact key cands [] (by simp)

theorem mem_buildElemList {cc cf : List Elem} {u : List String} {m : Int} {e : Elem} :
    e ∈ buildElemList cc cf u m ↔
      (e ∈ cc ∧ e.uid ∉ u) ∨
      (e ∈ cf ∧ e.uid ∉ u ∧ closeToAny (center e) cc m = false) := by
  simp [buildElemList, List.mem_filter, List.mem_append, List.elem_iff]

/-- C8 — amended.  Part 1 (the claim's first half, which holds): in the element
list presented in a round — built from the traverse-tree-deduplicated clickable
and focusable lists — no two kept elements have centers within `MIN_DIST` of
each other.  Part 2 (replacing the claim's false second half): membership is
characterized exactly — a clickable candidate is kept iff not useless (with no
distance filtering at this stage), and a focusable candidate is kept iff not
useless AND farther than `MIN_DIST` from every member of the RAW clickable
list, useless or not. -/
theorem C8_elem_list_pairwise_and_membership :
    (∀ (m : Int) (cc cf : List Elem) (u : List String),
      (buildElemList (dedupByDist m cc) (dedupByDist m cf) u m).Pairwise
        (fun a b => m ^ 2 < distSq (center a) (center b))) ∧
    (∀ (cc cf : List Elem) (u : List String) (m : Int) (e : Elem),
      e ∈ buildElemList cc cf u m ↔
        (e ∈ cc ∧ e.uid ∉ u) ∨
        (e ∈ cf ∧ e.uid ∉ u ∧ closeToAny (center e) cc m = false)) := by
  constructor
  · intro m cc cf u
    rw [buildElemList, List.pairwise_append]
    refine ⟨?_, ?_, ?_⟩
    · exact (dedupByDist_pairwise m cc).sublist (List.filter_sublist _)
    · exact (dedupByDist_pairwise m cf).sublist (List.filter_sublist _)
    · intro a ha b hb
      have hamem : a ∈ dedupByDist m cc := List.mem_of_mem_filter ha
      have hbprop := List.of_mem_filter hb
      simp only [Bool.and_eq_true, Bool.not_eq_true'] at hbprop
      have hfar := closeToAny_false_iff.mp hbprop.2 a hamem
      rw [distSq_comm] at hfar
      exact hfar
  · intro cc cf u m e
    exact mem_buildElemList

/-- C8 — counterexample to the claim's second half: with `MIN_DIST = 30`, the
useless clickable `c8A` is filtered out of the round's list, yet the focusable
candidate `c8F1` — farther than `MIN_DIST` from every KEPT element — is still
dropped, because the focusable dedup compares against the raw clickable list. -/
theorem C8_far_candidate_dropped :
    dedupByDist 30 [c8A] = [c8A] ∧
    dedupByDist 30 [c8F1, c8F2] = [c8F1, c8F2] ∧
    buildElemList [c8A] [c8F1, c8F2] ["A"] 30 = [c8F2] ∧
    c8F1 ∉ buildElemList [c8A] [c8F1, c8F2] ["A"] 30 ∧
    c8F1.uid ∉ ["A"] ∧
    (∀ e ∈ buildElemList [c8A] [c8F1, c8F2] ["A"] 30,
      (30 : Int) ^ 2 < distSq (center c8F1) (center e)) := by decide

/-- Witness for `C8_elem_list_pairwise_and_membership`: the membership
characterization applied at the same concrete round. -/
theorem C8_elem_list_witness :
    c8F2 ∈ buildElemList [c8A] [c8F1, c8F2] ["A"] 30 :=
  (C8_elem_list_pairwise_and_membership.2 [c8A] [c8F1, c8F2] ["A"] 30 c8F2).mpr
    (Or.inr ⟨by decide, by decide, by decide⟩)

/-! ## Helper lemma for the reflection-verdict bookkeeping. -/

theorem reflectStep_useless (st : LoopState) (uid kind d doc : String) (b : Bool) :
    (reflectStep st uid kind d doc b).1.useless_list =
      (if d = "INEFFECTIVE" ∨ d = "BACK" ∨ d = "CONTINUE"
       then pyAdd uid st.useless_list else st.useless_list) := by
  by_cases h1 : d = "ERROR"
  · subst h1
    rw [reflectStep, if_pos rfl, if_neg (by simp)]
  · by_cases h2 : d = "INEFFECTIVE"
    · subst h2
      rw [reflectStep, if_neg (by decide), if_pos rfl, if_pos (Or.inl rfl)]
    · by_cases h3 : d = "BACK" ∨ d = "CONTINUE" ∨ d = "SUCCESS"
      · by_cases h4 : d = "BACK" ∨ d = "CONTINUE"
        · rw [reflectStep, if_neg h1, if_neg h2, if_pos h3, if_pos h4,
            if_pos (show d = "INEFFECTIVE" ∨ d = "BACK" ∨ d = "CONTINUE" by tauto)]
          split
          · rfl
          · simp only []
            split
            · rfl
            · split <;> rfl
        · have h5 : d = "SUCCESS" := by tauto
          subst h5
          rw [reflectStep, if_neg (by decide : ¬("SUCCESS" : String) = "ERROR"),
            if_neg (by decide : ¬("SUCCESS" : String) = "INEFFECTIVE"),
            if_pos (show ("SUCCESS" : String) = "BACK" ∨ ("SUCCESS" : String) = "CONTINUE" ∨
              ("SUCCESS" : String) = "SUCCESS" by tauto),
            if_neg (by decide : ¬(("SUCCESS" : String) = "BACK" ∨
              ("SUCCESS" : String) = "CONTINUE")),
            if_neg (by decide : ¬(("SUCCESS" : String) = "INEFFECTIVE" ∨
              ("SUCCESS" : String) = "BACK" ∨ ("SUCCESS" : String) = "CONTINUE"))]
          split
          · rfl
          · simp only []
            split
            · rfl
            · split <;> rfl
      · rw [reflectStep, if_neg h1, if_neg h2, if_neg h3,
          if_neg (by tauto)]

/-- C2 — counterexample: a `CONTINUE` verdict also adds the acted-upon
element's uid to the useless set, contradicting the claim that only `BACK` and
`INEFFECTIVE` do. -/
theorem C2_continue_adds_to_useless :
    (reflectStep (initState []) "e42" "tap" "CONTINUE" "doc" true).1.useless_list =
      ["e42"] ∧ (initState []).useless_list = [] := by decide

/-- C2 — amended.  The uid is added exactly on the verdicts `BACK`,
`INEFFECTIVE` and `CONTINUE`; `SUCCESS` (and `ERROR`/unknown verdicts, which
abort) leave the set unchanged; and once a uid is in the useless set, the
round's presented element list filters every element carrying it out before
labeling. -/
theorem C2_useless_update_characterization :
    (∀ (st : LoopState) (uid kind doc : String) (b : Bool),
      (reflectStep st uid kind "BACK" doc b).1.useless_list =
        pyAdd uid st.useless_list) ∧
    (∀ (st : LoopState) (uid kind doc : String) (b : Bool),
      (reflectStep st uid kind "INEFFECTIVE" doc b).1.useless_list =
        pyAdd uid st.useless_list) ∧
    (∀ (st : LoopState) (uid kind doc : String) (b : Bool),
      (reflectStep st uid kind "CONTINUE" doc b).1.useless_list =
        pyAdd uid st.useless_list) ∧
    (∀ (st : LoopState) (uid kind d doc : String) (b : Bool),
      d ≠ "BACK" → d ≠ "INEFFECTIVE" → d ≠ "CONTINUE" →
      (reflectStep st uid kind d doc b).1.useless_list = st.useless_list) ∧
    (∀ (cc cf : List Elem) (u : List String) (m : Int) (e : Elem),
      e ∈ buildElemList cc cf u m → e.uid ∉ u) := by
  refine ⟨?_, ?_, ?_, ?_, ?_⟩
  · intro st uid kind doc b
    rw [reflectStep_useless, if_pos (by tauto)]
  · intro st uid kind doc b
    rw [reflectStep_useless, if_pos (by tauto)]
  · intro st uid kind doc b
    rw [reflectStep_useless, if_pos (by tauto)]
  · intro st uid kind d doc b h1 h2 h3
    rw [reflectStep_useless, if_neg (by tauto)]
  · intro cc cf u m e he
    rcases mem_buildElemList.mp he with ⟨-, h⟩ | ⟨-, h, -⟩ <;> exact h

/-- Witness for `C2_useless_update_characterization`: the `SUCCESS` clause at a
concrete state and the filter clause at the concrete round of C8's scenario. -/
theorem C2_useless_update_witness :
    (reflectStep (initState []) "e9" "tap" "SUCCESS" "doc" true).1.useless_list =
      (initState []).useless_list ∧
    c8F2.uid ∉ (["A"] : List String) :=
  ⟨C2_useless_update_characterization.2.2.2.1 (initState []) "e9" "tap" "SUCCESS"
      "doc" true (by decide) (by decide) (by decide),
   C2_useless_update_characterization.2.2.2.2 [c8A] [c8F1, c8F2] ["A"] 30 c8F2
      (by decide)⟩

/-! ## Helper lemmas about the loop body: fields the branches never touch. -/

theorem reflectStep_fields (st : LoopState) (u k d doc : String) (b : Bool) :
    (reflectStep st u k d doc b).1.round_count = st.round_count ∧
    (reflectStep st u k d doc b).1.task_complete = st.task_complete ∧
    (reflectStep st u k d doc b).1.tlbr = st.tlbr := by
  unfold reflectStep
  simp only []
  repeat' split
  all_goals exact ⟨rfl, rfl, rfl⟩

theorem doReflect_fields (st : LoopState) (env : RoundEnv) (a r : String) :
    (doReflect st env a r).1.round_count = st.round_count ∧
    (doReflect st env a r).1.task_complete = st.task_complete ∧
    (doReflect st env a r).1.tlbr = st.tlbr := by
  unfold doReflect
  split
  · exact ⟨rfl, rfl, rfl⟩
  · split
    · exact ⟨rfl, rfl, rfl⟩
    · exact reflectStep_fields st r a _ _ env.back_ok

theorem postAction_round_count (st : LoopState) (env : RoundEnv) (a r d : String) :
    (postAction st env a r d).1.round_count = st.round_count := by
  unfold postAction
  repeat' split
  all_goals first
    | rfl
    | exact (doReflect_fields st env _ r).1

theorem postAction_task (st : LoopState) (env : RoundEnv) (a r d : String) :
    (postAction st env a r d).1.task_complete = st.task_complete := by
  unfold postAction
  repeat' split
  all_goals first
    | rfl
    | exact (doReflect_fields st env _ r).2.1

theorem postAction_tlbr (st : LoopState) (env : RoundEnv) (a r d : String) :
    (postAction st env a r d).1.tlbr = st.tlbr := by
  unfold postAction
  repeat' split
  all_goals first
    | rfl
    | exact (doReflect_fields st env _ r).2.2

theorem runRound_round_count (m : Int) (st : LoopState) (env : RoundEnv) :
    (runRound m st env).1.round_count = st.round_count + 1 := by
  unfold runRound
  simp only []
  repeat' split
  all_goals simp [postAction_round_count]

/-! ## Helper lemmas about the while loop. -/

theorem loopGo_round_le (m : Int) (maxR : Nat) (envs : Nat → RoundEnv) :
    ∀ (fuel : Nat) (st : LoopState), st.round_count ≤ maxR →
      (loopGo m maxR envs fuel st).1.round_count ≤ maxR := by
  intro fuel
  induction fuel with
  | zero => intro st h; exact h
  | succ f ih =>
    intro st h
    simp only [loopGo]
    split
    · rename_i hlt
      split
      · rename_i st' heq
        have hrc : st'.round_count = st.round_count + 1 := by
          have h0 := runRound_round_count m st (envs st.round_count)
          rw [heq] at h0
          simpa using h0
        exact ih st' (by omega)
      · rename_i st' heq
        have hrc : st'.round_count = st.round_count + 1 := by
          have h0 := runRound_round_count m st (envs st.round_count)
          rw [heq] at h0
          simpa using h0
        show st'.round_count ≤ maxR
        omega
      · rename_i st' e heq
        have hrc : st'.round_count = st.round_count + 1 := by
          have h0 := runRound_round_count m st (envs st.round_count)
          rw [heq] at h0
          simpa using h0
        show st'.round_count ≤ maxR
        omega
    · exact h

/-- C3 — code bug: a round in which the model answers `grid()` and the grid
re-prompt yields a successfully executed grid tap does NOT proceed to
reflection; the dispatch on `act_name` (still `"grid"`) falls into the
"Undefined act!" branch and breaks the loop.  No verdict is processed (the
useless set and the documentation store stay empty despite a `SUCCESS`
reflection stub in the environment), and a five-round run exits with code 1. -/
theorem C3_grid_round_aborts_instead_of_reflecting :
    (runRound 30 (initState []) c3Env).2 = RoundExit.broke ∧
    (runRound 30 (initState []) c3Env).1.task_complete = false ∧
    (runRound 30 (initState []) c3Env).1.useless_list = [] ∧
    (runRound 30 (initState []) c3Env).1.docs = [] ∧
    exitCode 5 (runLoop 30 5 [] (fun _ => c3Env)) = 1 := by decide

/-- C5 — counterexample: a round whose model reply is the unsupported action
`frobnicate(1)` aborts the loop (`ERROR` path), yet when this happens in round
`MAX_ROUNDS` (here 1) the final `elif round_count == MAX_ROUNDS` check still
selects exit code 0. -/
theorem C5_abort_in_final_round_exits_zero :
    exitCode 1 (runLoop 30 1 [] (fun _ => c5ErrEnv)) = 0 ∧
    (runLoop 30 1 [] (fun _ => c5ErrEnv)).1.task_complete = false ∧
    (runRound 30 (initState []) c5ErrEnv).2 = RoundExit.broke := by decide

/-- C5 — amended.  For exception-free runs the exit code is 0 iff the run ended
with `task_complete` (a `Finish`) or with the round counter equal to
`MAX_ROUNDS` — whether the final round completed normally or aborted; the round
counter never exceeds `MAX_ROUNDS`; and a concrete three-round run that never
finishes reaches the limit and exits 0. -/
theorem C5_exit_code_characterization :
    (∀ (m : Int) (maxR : Nat) (docs : DocStore) (envs : Nat → RoundEnv),
      (runLoop m maxR docs envs).2 = none →
      (exitCode maxR (runLoop m maxR docs envs) = 0 ↔
        (runLoop m maxR docs envs).1.task_complete = true ∨
        (runLoop m maxR docs envs).1.round_count = maxR)) ∧
    (∀ (m : Int) (maxR : Nat) (docs : DocStore) (envs : Nat → RoundEnv),
      (runLoop m maxR docs envs).1.round_count ≤ maxR) ∧
    (exitCode 3 (runLoop 30 3 [] (fun _ => c5okEnv)) = 0 ∧
      (runLoop 30 3 [] (fun _ => c5okEnv)).1.round_count = 3 ∧
      (runLoop 30 3 [] (fun _ => c5okEnv)).1.task_complete = false) := by
  refine ⟨?_, ?_, ?_⟩
  · intro m maxR docs envs h
    rcases hr : runLoop m maxR docs envs with ⟨st, exc⟩
    rw [hr] at h
    replace h : exc = none := h
    subst h
    simp only [exitCode]
    by_cases ht : st.task_complete <;> by_cases hc : st.round_count = maxR <;>
      simp [ht, hc]
  · intro m maxR docs envs
    exact loopGo_round_le m maxR envs maxR (initState docs) (by simp [initState])
  · decide

/-- Witness for `C5_exit_code_characterization`: the characterization and the
round bound applied to the concrete aborting one-round run. -/
theorem C5_exit_code_witness :
    (exitCode 1 (runLoop 30 1 [] (fun _ => c5ErrEnv)) = 0 ↔
      (runLoop 30 1 [] (fun _ => c5ErrEnv)).1.task_complete = true ∨
      (runLoop 30 1 [] (fun _ => c5ErrEnv)).1.round_count = 1) ∧
    (runLoop 30 1 [] (fun _ => c5ErrEnv)).1.round_count ≤ 1 :=
  ⟨C5_exit_code_characterization.1 30 1 [] (fun _ => c5ErrEnv) (by decide),
   C5_exit_code_characterization.2.1 30 1 [] (fun _ => c5ErrEnv)⟩

/-- C10 — confirmed.  (1) From a state in which the bounding-box variables are
unbound, a round whose parsed action is `text(...)` raises `NameError` (the
executor glue dereferences `tl`/`br`); (2) a text round can only complete
(fall through to the next round) from a state whose bounding box was previously
set; (3) a round can only turn the bounding box from unbound to bound when its
parsed action is `tap`, `long_press` or `swipe`. -/
theorem C10_text_requires_prior_bbox :
    (∀ (m : Int) (st : LoopState) (env : RoundEnv) (i s o t a : String),
      st.tlbr = none → env.screenshot_before_ok = true → env.xml_ok = true →
      env.explore_ok = true →
      parse_explore_rsp env.explore_rsp = Except.ok (ExploreRes.textA i s o t a) →
      (runRound m st env).2 = RoundExit.crash PyErr.nameError) ∧
    (∀ (m : Int) (st : LoopState) (env : RoundEnv) (i s o t a : String),
      parse_explore_rsp env.explore_rsp = Except.ok (ExploreRes.textA i s o t a) →
      (runRound m st env).2 = RoundExit.next → st.tlbr ≠ none) ∧
    (∀ (m : Int) (st : LoopState) (env : RoundEnv),
      st.tlbr = none → (runRound m st env).1.tlbr ≠ none →
      (∃ n s o t a, parse_explore_rsp env.explore_rsp =
        Except.ok (ExploreRes.tap n s o t a)) ∨
      (∃ n s o t a, parse_explore_rsp env.explore_rsp =
        Except.ok (ExploreRes.long_press n s o t a)) ∨
      (∃ n d ds s o t a, parse_explore_rsp env.explore_rsp =
        Except.ok (ExploreRes.swipe n d ds s o t a))) := by
  refine ⟨?_, ?_, ?_⟩
  · intro m st env i s o t a htl hsb hxml hexp hp
    simp [runRound, hsb, hxml, hexp, hp, htl]
  · intro m st env i s o t a hp hnext
    intro htl
    by_cases hsb : env.screenshot_before_ok = false ∨ env.xml_ok = false
    · simp [runRound, hsb] at hnext
    · by_cases hex : env.explore_ok = false
      · simp [runRound, hsb, hex] at hnext
      · simp [runRound, hsb, hex, hp, htl] at hnext
  · intro m st env htl hne
    rcases hp : parse_explore_rsp env.explore_rsp with e | res
    · exfalso; apply hne
      simp only [runRound, hp]
      repeat' split
      all_goals simp_all [postAction_tlbr]
    · cases res with
      | tap n s o t a => exact Or.inl ⟨n, s, o, t, a, rfl⟩
      | long_press n s o t a => exact Or.inr (Or.inl ⟨n, s, o, t, a, rfl⟩)
      | swipe n d ds s o t a => exact Or.inr (Or.inr ⟨n, d, ds, s, o, t, a, rfl⟩)
      | FINISH o t a s =>
        exfalso; apply hne
        simp only [runRound, hp]
        repeat' split
        all_goals simp_all [postAction_tlbr]
      | ERROR =>
        exfalso; apply hne
        simp only [runRound, hp]
        repeat' split
        all_goals simp_all [postAction_tlbr]
      | textA i s o t a =>
        exfalso; apply hne
        simp only [runRound, hp]
        repeat' split
        all_goals simp_all [postAction_tlbr]
      | grid o t a s =>
        exfalso; apply hne
        simp only [runRound, hp]
        repeat' split
        all_goals simp_all [postAction_tlbr]

/-- Witness for `C10_text_requires_prior_bbox`: the very first model reply of a
run is `text("hello")`; the round crashes with the modelled `NameError`. -/
theorem C10_text_crash_witness :
    (runRound 30 (initState []) c10Env).2 = RoundExit.crash PyErr.nameError :=
  C10_text_requires_prior_bbox.1 30 (initState []) c10Env "hello" "typed" "o" "t"
    "text(\"hello\")" rfl rfl rfl rfl (by decide)

end Klever
